import Mathlib

/-!
Shallow embedding of the course-recommendation engine of
`backend/app/recommendation_engine` (`service.py`, `queries.py`, `config.py`).

The database session is modelled as an immutable `Snapshot` holding the rows
of the tables the engine reads.  Each function of `queries.py` becomes a pure
function over the snapshot; Python `float` arithmetic is modelled by `ℚ`
(every operation performed by the engine is +, -, *, / on decimal constants);
Python `set`s become `Finset ℕ`; Python's stable `sorted(..., reverse=True)`
becomes `List.insertionSort` with a "greater or equal" comparator (a stable
sort's output is uniquely determined by the input order and the total
preorder, so any stable sort models `sorted` exactly).  The only exception
raised by `recommend_courses` is modelled with `Except String`.
-/

namespace RecEngine

/-- A row of the `courses` table (only `id` and `name` are read). -/
structure Course where
  id : Nat
  name : String
deriving DecidableEq, Repr

/-- A row of the `skills` table; `type` is `"technical"` or `"human"`. -/
structure Skill where
  id : Nat
  name : String
  type : String
deriving DecidableEq, Repr

/-- A row of the `course_skills` table: `(course_id, skill_id, relevance_score)`,
`relevance_score` nullable. -/
structure CourseSkillRow where
  course_id : Nat
  skill_id : Nat
  relevance_score : Option ℚ
deriving DecidableEq, Repr

/-- A row of the `course_reviews` table (only `course_id` and `final_score`
are read by the engine's aggregation queries). -/
structure Review where
  course_id : Nat
  final_score : ℚ
deriving DecidableEq, Repr

/-- Read-only snapshot of every table the recommendation engine queries. -/
structure Snapshot where
  /-- rows of `courses` -/
  courses : List Course
  /-- rows of `skills` -/
  skills : List Skill
  /-- ids of rows of `clusters` -/
  clusters : List Nat
  /-- rows of `course_clusters` as `(course_id, cluster_id)` -/
  courseClusters : List (Nat × Nat)
  /-- rows of `course_skills` -/
  courseSkills : List CourseSkillRow
  /-- rows of `course_reviews` -/
  reviews : List Review
  /-- rows of `course_prerequisites` as `(course_id, required_course_id)` -/
  prereqRows : List (Nat × Nat)
  /-- ids of rows of `students` -/
  studentIds : List Nat
  /-- rows of `career_goal_technical_skills` as `(career_goal_id, skill_id)` -/
  goalTechRows : List (Nat × Nat)
  /-- rows of `career_goal_human_skills` as `(career_goal_id, skill_id)` -/
  goalHumanRows : List (Nat × Nat)
  /-- rows of `student_courses` with `status = 'completed'`, as
  `(student_id, course_id)` -/
  completedRows : List (Nat × Nat)
  /-- rows of `student_human_skills` as `(student_id, skill_id)` -/
  studentHumanRows : List (Nat × Nat)
deriving Repr

/-! ## config.py -/

/-- Python `W1 = 0.80`: weight of role fit. -/
def W1 : ℚ := 0.80

/-- Python `W2 = 0.10`: weight of affinity. -/
def W2 : ℚ := 0.10

/-- Python `W5 = 0.10`: weight of review quality. -/
def W5 : ℚ := 0.10

/-- Python `ALPHA = 0.6`: cluster-match weight inside similarity. -/
def ALPHA : ℚ := 0.6

/-- Python `TOP_K_SIMILAR = 3`: how many completed-course similarities are averaged. -/
def TOP_K_SIMILAR : Nat := 3

/-- Python `PRIOR_M = 5`: prior strength of the Bayesian review smoothing. -/
def PRIOR_M : ℚ := 5

/-! ## queries.py -/

/-- Python `get_student`: whether the student row exists (the engine only tests
truthiness of the returned row). -/
def get_student (db : Snapshot) (student_id : Nat) : Bool :=
  db.studentIds.contains student_id

/-- Python `get_student_human_skills`: `skill_id`s from `student_human_skills` for
this student, in row order. -/
def get_student_human_skills (db : Snapshot) (student_id : Nat) : List Nat :=
  (db.studentHumanRows.filter (fun r => r.1 = student_id)).map (fun r => r.2)

/-- Python `get_all_course_skills`: every `course_skills` row. -/
def get_all_course_skills (db : Snapshot) : List CourseSkillRow :=
  db.courseSkills

/-- Auxiliary: the `type` of the skill row with a given id (`Skill.id` is a
primary key; `find?` models the SQL join on it). -/
def skillTypeOf (db : Snapshot) (skill_id : Nat) : Option String :=
  (db.skills.find? (fun s => s.id = skill_id)).map (fun s => s.type)

/-- Python `get_course_technical_skills_map`: for one course, the set of its skill
ids whose skill row exists with `type = 'technical'` (the SQL inner join). -/
def get_course_technical_skills_map (db : Snapshot) (course_id : Nat) : Finset Nat :=
  ((db.courseSkills.filter
      (fun r => r.course_id = course_id ∧ skillTypeOf db r.skill_id = some "technical")).map
    (fun r => r.skill_id)).toFinset

/-- Python `get_career_goal_skills`: `(tech_ids, human_ids)` required by a career
goal; a goal with no rows yields `([], [])`. -/
def get_career_goal_skills (db : Snapshot) (career_goal_id : Nat) : List Nat × List Nat :=
  ((db.goalTechRows.filter (fun r => r.1 = career_goal_id)).map (fun r => r.2),
   (db.goalHumanRows.filter (fun r => r.1 = career_goal_id)).map (fun r => r.2))

/-- Python `get_all_courses`. -/
def get_all_courses (db : Snapshot) : List Course :=
  db.courses

/-- Python `get_course_clusters_map`: for one course, the set of ids of its clusters
(the service immediately takes `set(cl.id ...)`; the inner join drops
memberships whose cluster row is missing). -/
def get_course_clusters_map (db : Snapshot) (course_id : Nat) : Finset Nat :=
  ((db.courseClusters.filter
      (fun r => r.1 = course_id ∧ db.clusters.contains r.2)).map (fun r => r.2)).toFinset

/-- The review scores of one course, in row order. -/
def reviewsFor (db : Snapshot) (course_id : Nat) : List ℚ :=
  (db.reviews.filter (fun r => r.course_id = course_id)).map (fun r => r.final_score)

/-- Python `get_course_review_stats`, per-course part: `{'n': count, 'avg': mean}`
for courses having at least one review, `None` otherwise (SQL `GROUP BY`
produces no group for a course with no reviews). -/
def get_course_review_stats (db : Snapshot) (course_id : Nat) : Option (Nat × ℚ) :=
  let rs := reviewsFor db course_id
  if rs.isEmpty then none else some (rs.length, rs.sum / (rs.length : ℚ))

/-- Python `get_course_review_stats`, global part: mean of `final_score` over all
review rows, `None` when there are none. -/
def global_mean (db : Snapshot) : Option ℚ :=
  if db.reviews.isEmpty then none
  else some ((db.reviews.map (fun r => r.final_score)).sum / (db.reviews.length : ℚ))

/-- Python `get_course_prereqs`: the required course ids of one course (a Python
`set`; modelled as the deduplicated row-order list). -/
def get_course_prereqs (db : Snapshot) (course_id : Nat) : List Nat :=
  ((db.prereqRows.filter (fun r => r.1 = course_id)).map (fun r => r.2)).dedup

/-- Python `get_student_completed_course_ids`: completed course ids in row order. -/
def get_student_completed_course_ids (db : Snapshot) (student_id : Nat) : List Nat :=
  (db.completedRows.filter (fun r => r.1 = student_id)).map (fun r => r.2)

/-! ## service.py -/

/-- Python `skill_map.get(sid, '')`: name of a skill id, defaulting to `""`; the
dict comprehension lets a later duplicate id win. -/
def skill_map (db : Snapshot) (skill_id : Nat) : String :=
  (((db.skills.filter (fun s => s.id = skill_id)).map (fun s => s.name)).getLast?).getD ""

/-- Python `course_skills_lookup.get(course_id, {}).get(skill_id, 0.0)`: the
relevance of a (course, skill) pair; a missing row or a `NULL` score is
`0.0`; the dict build lets a later duplicate row win. -/
def relevanceLookup (db : Snapshot) (course_id skill_id : Nat) : ℚ :=
  (((db.courseSkills.filter
      (fun r => r.course_id = course_id ∧ r.skill_id = skill_id)).map
    (fun r => r.relevance_score.getD 0)).getLast?).getD 0

/-- Python `_compute_course_similarity`: returns
`(similarity, cluster_matched, tech_overlap_score)`. -/
def _compute_course_similarity (course_a_id course_b_id : Nat)
    (course_clusters_map : Nat → Finset Nat)
    (tech_skills_map : Nat → Finset Nat) : ℚ × Bool × ℚ :=
  let clusters_a := course_clusters_map course_a_id
  let clusters_b := course_clusters_map course_b_id
  let cluster_match : ℚ := if (clusters_a ∩ clusters_b).Nonempty then 1 else 0
  let skills_a := tech_skills_map course_a_id
  let skills_b := tech_skills_map course_b_id
  let tech_overlap_score : ℚ :=
    if skills_a = ∅ ∧ skills_b = ∅ then 0
    else
      let intersection := (skills_a ∩ skills_b).card
      let union := (skills_a ∪ skills_b).card
      if 0 < union then (intersection : ℚ) / (union : ℚ) else 0
  let similarity := ALPHA * cluster_match + (1 - ALPHA) * tech_overlap_score
  (similarity, decide (clusters_a ∩ clusters_b).Nonempty, tech_overlap_score)

/-- One tuple of the service's `sims` list:
`(sim, completed_id, completed_course.name, cluster_match, tech_overlap)`. -/
structure SimEntry where
  sim : ℚ
  completed_course_id : Nat
  completed_course_name : String
  cluster_matched : Bool
  tech_overlap_score : ℚ
deriving DecidableEq, Repr

/-- An element of `overlap_human_skills` / `missing_human_skills`. -/
structure SkillRef where
  skill_id : Nat
  name : String
deriving DecidableEq, Repr

/-- An element of `matched_technical_skills`. -/
structure MatchedTech where
  skill_id : Nat
  name : String
  relevance_score : ℚ
deriving DecidableEq, Repr

/-- The `breakdown` sub-dict of a scored course. -/
structure Breakdown where
  s_role : ℚ
  s_affinity : ℚ
  q_smoothed : ℚ
deriving DecidableEq, Repr

/-- One entry of the `recommendations` list; `affinity_explanation` holds
the `top_contributing_courses` list when present. -/
structure ScoredCourse where
  course_id : Nat
  name : String
  final_score : ℚ
  breakdown : Breakdown
  avg_score_raw : Option ℚ
  review_count : Nat
  matched_technical_skills : List MatchedTech
  missing_technical_skills : List Nat
  affinity_explanation : Option (List SimEntry)
deriving DecidableEq, Repr

/-- One entry of the `blocked_courses` list. -/
structure BlockedCourse where
  course_id : Nat
  course_name : String
  missing_prereqs : List Nat
deriving DecidableEq, Repr

/-- The dict returned by `recommend_courses`. -/
structure RecommendationResult where
  soft_readiness : ℚ
  overlap_human_skills : List SkillRef
  missing_human_skills : List SkillRef
  recommendations : List ScoredCourse
  blocked_reason : Option String
  blocked_courses : Option (List BlockedCourse)
deriving DecidableEq, Repr

/-- The fixed blocking explanation string. -/
def blockedMsg : String :=
  "No overlap between student's human skills and required human skills for this goal"

/-- Python `R_tech = set(tech_ids)`: the goal's required technical-skill set. -/
def R_techOf (db : Snapshot) (career_goal_id : Nat) : Finset Nat :=
  (get_career_goal_skills db career_goal_id).1.toFinset

/-- Python `R_human = set(human_ids)`: the goal's required human-skill set. -/
def R_humanOf (db : Snapshot) (career_goal_id : Nat) : Finset Nat :=
  (get_career_goal_skills db career_goal_id).2.toFinset

/-- Python `student_human_skills = set(...)`. -/
def humanHeldOf (db : Snapshot) (student_id : Nat) : Finset Nat :=
  (get_student_human_skills db student_id).toFinset

/-- Python `C = (global_mean / 10.0) if global_mean is not None else 0.5`. -/
def C_value (db : Snapshot) : ℚ :=
  match global_mean db with
  | some g => g / 10
  | none => 0.5

/-- The readiness ratio the gate computes: `1.0` when the goal requires no
human skills, else `len(overlap) / len(R_human)`. -/
def soft_readinessOf (db : Snapshot) (student_id career_goal_id : Nat) : ℚ :=
  if R_humanOf db career_goal_id = ∅ then 1
  else ((R_humanOf db career_goal_id ∩ humanHeldOf db student_id).card : ℚ) /
    ((R_humanOf db career_goal_id).card : ℚ)

/-- Python `missing = [r for r in reqs if r not in student_completed_ids]`. -/
def missingPrereqs (db : Snapshot) (student_completed_ids : List Nat) (course_id : Nat) :
    List Nat :=
  (get_course_prereqs db course_id).filter (fun r => !(student_completed_ids.contains r))

/-- The `sims` list of the affinity step for one candidate course `c`:
one entry per completed course id whose course row exists
(`next((co for co in all_courses if co.id == completed_id), None)`). -/
def simsFor (db : Snapshot) (all_courses : List Course)
    (student_completed_ids : List Nat) (c : Course) : List SimEntry :=
  student_completed_ids.filterMap (fun completed_id =>
    (all_courses.find? (fun co => co.id = completed_id)).map (fun completed_course =>
      let r := _compute_course_similarity c.id completed_id
        (get_course_clusters_map db) (get_course_technical_skills_map db)
      { sim := r.1
        completed_course_id := completed_id
        completed_course_name := completed_course.name
        cluster_matched := r.2.1
        tech_overlap_score := r.2.2 }))

/-- The comparator of `sorted(sims, key=lambda x: x[0], reverse=True)`:
stable descending order on the similarity score.  (Python's `sorted` is a
stable sort; a stable sort's output is uniquely determined by the input and
the total preorder, so the structurally recursive `List.insertionSort` below
models it exactly.) -/
def simGE (x y : SimEntry) : Prop := y.sim ≤ x.sim

instance : DecidableRel simGE :=
  fun x y => inferInstanceAs (Decidable (y.sim ≤ x.sim))

instance : IsTotal SimEntry simGE := ⟨fun a b => le_total b.sim a.sim⟩

instance : IsTrans SimEntry simGE := ⟨fun _ _ _ h1 h2 => le_trans h2 h1⟩

/-- The comparator of `sorted(results, key=lambda x: x['final_score'],
reverse=True)`. -/
def scoreGE (x y : ScoredCourse) : Prop := y.final_score ≤ x.final_score

instance : DecidableRel scoreGE :=
  fun x y => inferInstanceAs (Decidable (y.final_score ≤ x.final_score))

instance : IsTotal ScoredCourse scoreGE := ⟨fun a b => le_total b.final_score a.final_score⟩

instance : IsTrans ScoredCourse scoreGE := ⟨fun _ _ _ h1 h2 => le_trans h2 h1⟩

/-- The body of the per-candidate scoring loop of `recommend_courses`
(service.py lines 173-273) for candidate course `c`. -/
def scoreCourse (db : Snapshot) (all_courses : List Course) (R_tech : Finset Nat)
    (student_completed_ids : List Nat) (C : ℚ) (c : Course) : ScoredCourse :=
  -- S_ROLE
  let s_role : ℚ :=
    if R_tech = ∅ then 0
    else (∑ sid ∈ R_tech, relevanceLookup db c.id sid) / (R_tech.card : ℚ)
  -- S_AFFINITY
  let sims := simsFor db all_courses student_completed_ids c
  let sims_sorted := List.insertionSort simGE sims
  let top_k := min TOP_K_SIMILAR sims_sorted.length
  let affinity : ℚ × List SimEntry :=
    if student_completed_ids.isEmpty then (0, [])
    else if sims.isEmpty then (0, [])
    else (((sims_sorted.take top_k).map (fun s => s.sim)).sum / (top_k : ℚ),
          sims_sorted.take top_k)
  let s_affinity := affinity.1
  let affinity_details := affinity.2
  -- Q_SMOOTHED
  let stats := get_course_review_stats db c.id
  let n_reviews : Nat := match stats with | some st => st.1 | none => 0
  let q_raw : ℚ := match stats with | some st => st.2 / 10 | none => C
  let q_smoothed : ℚ :=
    if 0 < PRIOR_M + (n_reviews : ℚ) then
      (PRIOR_M * C + (n_reviews : ℚ) * q_raw) / (PRIOR_M + (n_reviews : ℚ))
    else C
  -- FINAL SCORE
  let final_score := W1 * s_role + W2 * s_affinity + W5 * q_smoothed
  -- EXPLAINABILITY (iteration over the Python set `R_tech` is modelled in
  -- ascending id order)
  let R_tech_sorted := R_tech.sort (· ≤ ·)
  let matched_technical : List MatchedTech :=
    R_tech_sorted.filterMap (fun sid =>
      let relevance := relevanceLookup db c.id sid
      if 0 < relevance then
        some { skill_id := sid, name := skill_map db sid, relevance_score := relevance }
      else none)
  let missing_technical : List Nat :=
    R_tech_sorted.filter (fun sid => !(decide (0 < relevanceLookup db c.id sid)))
  { course_id := c.id
    name := c.name
    final_score := final_score
    breakdown := { s_role := s_role, s_affinity := s_affinity, q_smoothed := q_smoothed }
    avg_score_raw := stats.map (fun st => st.2)
    review_count := n_reviews
    matched_technical_skills := matched_technical
    missing_technical_skills := missing_technical
    affinity_explanation := if affinity_details.isEmpty then none else some affinity_details }

/-- The `candidate_courses` list after both filtering steps of
`recommend_courses` (service.py lines 141-158). -/
def candidatesOf (db : Snapshot) (all_courses : List Course)
    (student_completed_ids : List Nat) (enforce_prereqs : Bool) : List Course :=
  let candidate0 := all_courses.filter (fun c => !(student_completed_ids.contains c.id))
  if enforce_prereqs then
    candidate0.filter (fun c => (missingPrereqs db student_completed_ids c.id).isEmpty)
  else candidate0

/-- The `blocked_courses` list built by the prerequisite-filtering step. -/
def blockedOf (db : Snapshot) (all_courses : List Course)
    (student_completed_ids : List Nat) (enforce_prereqs : Bool) : List BlockedCourse :=
  let candidate0 := all_courses.filter (fun c => !(student_completed_ids.contains c.id))
  if enforce_prereqs then
    (candidate0.filter (fun c => !(missingPrereqs db student_completed_ids c.id).isEmpty)).map
      (fun c =>
        { course_id := c.id
          course_name := c.name
          missing_prereqs := missingPrereqs db student_completed_ids c.id })
  else []

/-- The `results` list: one `scoreCourse` output per candidate, in candidate
order. -/
def resultsOf (db : Snapshot) (all_courses : List Course) (R_tech : Finset Nat)
    (student_completed_ids : List Nat) (enforce_prereqs : Bool) : List ScoredCourse :=
  (candidatesOf db all_courses student_completed_ids enforce_prereqs).map
    (scoreCourse db all_courses R_tech student_completed_ids (C_value db))

/-- The unblocked tail of `recommend_courses` (service.py lines 141-285):
candidate filtering, scoring, ranking, response assembly. -/
def scoreAndRank (db : Snapshot) (all_courses : List Course)
    (student_completed_ids : List Nat) (R_tech : Finset Nat)
    (soft_readiness : ℚ) (overlap_human missing_human : List SkillRef)
    (k : Nat) (enforce_prereqs : Bool) : RecommendationResult :=
  let blocked_courses := blockedOf db all_courses student_completed_ids enforce_prereqs
  let results := resultsOf db all_courses R_tech student_completed_ids enforce_prereqs
  let sorted_results := (List.insertionSort scoreGE results).take k
  { soft_readiness := soft_readiness
    overlap_human_skills := overlap_human
    missing_human_skills := missing_human
    recommendations := sorted_results
    blocked_reason := none
    blocked_courses := if enforce_prereqs then some blocked_courses else none }

/-- Python `recommend_courses` (service.py lines 56-285). -/
def recommend_courses (db : Snapshot) (student_id career_goal_id : Nat)
    (k : Nat := 10) (enforce_prereqs : Bool := true) :
    Except String RecommendationResult :=
  if ¬ get_student db student_id then .error "Student not found"
  else
    let all_courses := get_all_courses db
    let student_completed_ids := get_student_completed_course_ids db student_id
    let student_human_skills := humanHeldOf db student_id
    let R_tech := R_techOf db career_goal_id
    let R_human := R_humanOf db career_goal_id
    if R_human = ∅ then
      .ok (scoreAndRank db all_courses student_completed_ids R_tech 1 [] []
        k enforce_prereqs)
    else
      let overlap_human_ids := R_human ∩ student_human_skills
      let missing_human_ids := R_human \ student_human_skills
      let soft_readiness : ℚ := (overlap_human_ids.card : ℚ) / (R_human.card : ℚ)
      let overlap_human := (overlap_human_ids.sort (· ≤ ·)).map
        (fun sid => SkillRef.mk sid (skill_map db sid))
      let missing_human := (missing_human_ids.sort (· ≤ ·)).map
        (fun sid => SkillRef.mk sid (skill_map db sid))
      if soft_readiness = 0 then
        .ok { soft_readiness := soft_readiness
              overlap_human_skills := overlap_human
              missing_human_skills := missing_human
              recommendations := []
              blocked_reason := some blockedMsg
              blocked_courses := if enforce_prereqs then some [] else none }
      else
        .ok (scoreAndRank db all_courses student_completed_ids R_tech soft_readiness
          overlap_human missing_human k enforce_prereqs)

/-! ## Concrete snapshots used by witnesses and counterexamples -/

/-- A minimal snapshot: one course, one student, and no career-goal rows at
all, so any goal id (e.g. 99) does not exist in it. -/
def dbMin : Snapshot :=
  { courses := [⟨1, "A"⟩]
    skills := []
    clusters := []
    courseClusters := []
    courseSkills := []
    reviews := []
    prereqRows := []
    studentIds := [1]
    goalTechRows := []
    goalHumanRows := []
    completedRows := []
    studentHumanRows := [] }

/-- A small but fully populated snapshot.  Student 1 has completed course 2,
holds human skill 20; career goal 5 requires technical skills {10, 11} and
human skill {20}; course 1 is the only eligible candidate (course 3 is
blocked by the unmet prerequisite 99); courses 1 and 2 share cluster 100 and
technical skill 10; the global review mean is 5 (so `C = 0.5`) and course 1
has a single review of 10. -/
def dbW : Snapshot :=
  { courses := [⟨1, "Algorithms"⟩, ⟨2, "Intro"⟩, ⟨3, "Advanced"⟩]
    skills := [⟨10, "Python", "technical"⟩, ⟨11, "SQL", "technical"⟩,
               ⟨20, "Teamwork", "human"⟩]
    clusters := [100]
    courseClusters := [(1, 100), (2, 100)]
    courseSkills := [⟨1, 10, some 0.8⟩, ⟨2, 10, some 0.5⟩]
    reviews := [⟨1, 10⟩, ⟨2, 0⟩]
    prereqRows := [(3, 99)]
    studentIds := [1]
    goalTechRows := [(5, 10), (5, 11)]
    goalHumanRows := [(5, 20)]
    completedRows := [(1, 2)]
    studentHumanRows := [(1, 20)] }

/-- A sparsely annotated snapshot: a null relevance on a dangling skill, a
career goal requiring a skill that has no row, a completed course id that is
not in the course table, no reviews, no clusters. -/
def dbSparse : Snapshot :=
  { courses := [⟨1, "A"⟩]
    skills := []
    clusters := []
    courseClusters := []
    courseSkills := [⟨1, 77, none⟩]
    reviews := []
    prereqRows := []
    studentIds := [9]
    goalTechRows := [(5, 88)]
    goalHumanRows := []
    completedRows := [(9, 42)]
    studentHumanRows := [] }

/-- A snapshot in which the readiness gate blocks: career goal 5 requires
human skill 20 and student 1 holds no human skills. -/
def dbBlocked : Snapshot :=
  { courses := [⟨1, "A"⟩, ⟨2, "B"⟩]
    skills := [⟨20, "Teamwork", "human"⟩]
    clusters := []
    courseClusters := []
    courseSkills := []
    reviews := []
    prereqRows := [(2, 1)]
    studentIds := [1]
    goalTechRows := []
    goalHumanRows := [(5, 20)]
    completedRows := []
    studentHumanRows := [] }

/-- The full engine output on `dbW` for student 1, goal 5, `k = 10`,
`enforce_prereqs = true` (the readiness gate passes with ratio 1). -/
def dbW_result : RecommendationResult :=
  scoreAndRank dbW (get_all_courses dbW) (get_student_completed_course_ids dbW 1)
    (R_techOf dbW 5)
    (((R_humanOf dbW 5 ∩ humanHeldOf dbW 1).card : ℚ) / ((R_humanOf dbW 5).card : ℚ))
    (((R_humanOf dbW 5 ∩ humanHeldOf dbW 1).sort (· ≤ ·)).map
      (fun s => SkillRef.mk s (skill_map dbW s)))
    (((R_humanOf dbW 5 \ humanHeldOf dbW 1).sort (· ≤ ·)).map
      (fun s => SkillRef.mk s (skill_map dbW s)))
    10 true

/-- The full engine output on `dbSparse` for student 9, goal 5 (which
requires no human skills, so the gate passes trivially). -/
def dbSparse_result : RecommendationResult :=
  scoreAndRank dbSparse (get_all_courses dbSparse)
    (get_student_completed_course_ids dbSparse 9) (R_techOf dbSparse 5) 1 [] [] 10 true

/-! ## General lemmas about the embedding -/

lemma soft_pos (db : Snapshot) (sid gid : Nat)
    (hov : (R_humanOf db gid ∩ humanHeldOf db sid).Nonempty) :
    0 < ((R_humanOf db gid ∩ humanHeldOf db sid).card : ℚ) /
      ((R_humanOf db gid).card : ℚ) := by
  apply div_pos
  · exact_mod_cast Finset.card_pos.mpr hov
  · have : (R_humanOf db gid).Nonempty :=
      Finset.Nonempty.mono Finset.inter_subset_left hov
    exact_mod_cast Finset.card_pos.mpr this

lemma recommend_ok_of_Rhuman_empty (db : Snapshot) (sid gid k : Nat) (ep : Bool)
    (hs : get_student db sid = true) (hR : R_humanOf db gid = ∅) :
    recommend_courses db sid gid k ep =
      .ok (scoreAndRank db (get_all_courses db) (get_student_completed_course_ids db sid)
        (R_techOf db gid) 1 [] [] k ep) := by
  simp [recommend_courses, hs, hR]

lemma recommend_ok_blocked (db : Snapshot) (sid gid k : Nat) (ep : Bool)
    (hs : get_student db sid = true) (hR : R_humanOf db gid ≠ ∅)
    (hov : R_humanOf db gid ∩ humanHeldOf db sid = ∅) :
    recommend_courses db sid gid k ep =
      .ok { soft_readiness := 0
            overlap_human_skills := []
            missing_human_skills :=
              ((R_humanOf db gid \ humanHeldOf db sid).sort (· ≤ ·)).map
                (fun s => SkillRef.mk s (skill_map db s))
            recommendations := []
            blocked_reason := some blockedMsg
            blocked_courses := if ep then some [] else none } := by
  simp [recommend_courses, hs, hR, hov]

lemma recommend_ok_pass (db : Snapshot) (sid gid k : Nat) (ep : Bool)
    (hs : get_student db sid = true) (hR : R_humanOf db gid ≠ ∅)
    (hov : (R_humanOf db gid ∩ humanHeldOf db sid).Nonempty) :
    recommend_courses db sid gid k ep =
      .ok (scoreAndRank db (get_all_courses db) (get_student_completed_course_ids db sid)
        (R_techOf db gid)
        (((R_humanOf db gid ∩ humanHeldOf db sid).card : ℚ) / ((R_humanOf db gid).card : ℚ))
        (((R_humanOf db gid ∩ humanHeldOf db sid).sort (· ≤ ·)).map
          (fun s => SkillRef.mk s (skill_map db s)))
        (((R_humanOf db gid \ humanHeldOf db sid).sort (· ≤ ·)).map
          (fun s => SkillRef.mk s (skill_map db s)))
        k ep) := by
  have hne := Finset.nonempty_iff_ne_empty.mp hov
  simp [recommend_courses, hs, hR, hne]

lemma recommend_error (db : Snapshot) (sid gid k : Nat) (ep : Bool)
    (hs : ¬ get_student db sid = true) :
    recommend_courses db sid gid k ep = .error "Student not found" := by
  simp [recommend_courses, hs]

/-- Every `Except.ok` result of `recommend_courses` is either the blocked
response or a `scoreAndRank` response. -/
lemma ok_cases (db : Snapshot) (sid gid k : Nat) (ep : Bool)
    (res : RecommendationResult)
    (hok : recommend_courses db sid gid k ep = .ok res) :
    (res.recommendations = [] ∧ res.blocked_reason = some blockedMsg ∧
      res.blocked_courses = (if ep then some [] else none)) ∨
    (∃ sr ov ms, res = scoreAndRank db (get_all_courses db)
      (get_student_completed_course_ids db sid) (R_techOf db gid) sr ov ms k ep) := by
  by_cases hs : get_student db sid = true
  · by_cases hR : R_humanOf db gid = ∅
    · right
      refine ⟨1, [], [], ?_⟩
      have h := recommend_ok_of_Rhuman_empty db sid gid k ep hs hR
      rw [h] at hok
      exact (Except.ok.inj hok).symm
    · by_cases hov : R_humanOf db gid ∩ humanHeldOf db sid = ∅
      · left
        have h := recommend_ok_blocked db sid gid k ep hs hR hov
        rw [h] at hok
        rw [← Except.ok.inj hok]
        exact ⟨rfl, rfl, rfl⟩
      · right
        have h := recommend_ok_pass db sid gid k ep hs hR
          (Finset.nonempty_iff_ne_empty.mpr hov)
        rw [h] at hok
        exact ⟨_, _, _, (Except.ok.inj hok).symm⟩
  · rw [recommend_error db sid gid k ep hs] at hok
    cases hok

lemma scoreAndRank_recommendations (db : Snapshot) (ac : List Course)
    (comp : List Nat) (rt : Finset Nat) (sr : ℚ) (ov ms : List SkillRef)
    (k : Nat) (ep : Bool) :
    (scoreAndRank db ac comp rt sr ov ms k ep).recommendations =
      (List.insertionSort scoreGE (resultsOf db ac rt comp ep)).take k := rfl

/-- Every recommendation entry is the score of some candidate course. -/
lemma mem_recommendations (db : Snapshot) (sid gid k : Nat) (ep : Bool)
    (res : RecommendationResult) (rec : ScoredCourse)
    (hok : recommend_courses db sid gid k ep = .ok res)
    (hmem : rec ∈ res.recommendations) :
    ∃ c ∈ candidatesOf db (get_all_courses db)
        (get_student_completed_course_ids db sid) ep,
      rec = scoreCourse db (get_all_courses db) (R_techOf db gid)
        (get_student_completed_course_ids db sid) (C_value db) c := by
  rcases ok_cases db sid gid k ep res hok with ⟨hemp, -, -⟩ | ⟨sr, ov, ms, hres⟩
  · rw [hemp] at hmem
    cases hmem
  · rw [hres, scoreAndRank_recommendations] at hmem
    have h1 := List.mem_of_mem_take hmem
    have h2 := (List.perm_insertionSort scoreGE (resultsOf db (get_all_courses db)
      (R_techOf db gid) (get_student_completed_course_ids db sid) ep)).mem_iff.mp h1
    rcases List.mem_map.mp h2 with ⟨c, hc, hrc⟩
    exact ⟨c, hc, hrc.symm⟩

lemma scoreCourse_s_role (db : Snapshot) (ac : List Course) (rt : Finset Nat)
    (comp : List Nat) (C : ℚ) (c : Course) :
    (scoreCourse db ac rt comp C c).breakdown.s_role =
      if rt = ∅ then 0
      else (∑ sid ∈ rt, relevanceLookup db c.id sid) / (rt.card : ℚ) := rfl

lemma scoreCourse_course_id (db : Snapshot) (ac : List Course) (rt : Finset Nat)
    (comp : List Nat) (C : ℚ) (c : Course) :
    (scoreCourse db ac rt comp C c).course_id = c.id := rfl

lemma scoreCourse_review_count (db : Snapshot) (ac : List Course) (rt : Finset Nat)
    (comp : List Nat) (C : ℚ) (c : Course) :
    (scoreCourse db ac rt comp C c).review_count = (reviewsFor db c.id).length := by
  by_cases h : (reviewsFor db c.id).isEmpty
  · have h0 : (reviewsFor db c.id).length = 0 := by
      rw [List.isEmpty_iff] at h
      simp [h]
    simp [scoreCourse, get_course_review_stats, h, h0]
  · simp [scoreCourse, get_course_review_stats, h]

lemma scoreCourse_q_smoothed_pos (db : Snapshot) (ac : List Course) (rt : Finset Nat)
    (comp : List Nat) (C : ℚ) (c : Course)
    (h : (reviewsFor db c.id).length ≠ 0) :
    (scoreCourse db ac rt comp C c).breakdown.q_smoothed =
      (PRIOR_M * C + ((reviewsFor db c.id).length : ℚ) *
        ((reviewsFor db c.id).sum / ((reviewsFor db c.id).length : ℚ) / 10)) /
      (PRIOR_M + ((reviewsFor db c.id).length : ℚ)) := by
  have hne : ¬ (reviewsFor db c.id).isEmpty := by
    rw [List.isEmpty_iff]
    intro hcon
    rw [hcon] at h
    exact h rfl
  have hpos : (0 : ℚ) < PRIOR_M + ((reviewsFor db c.id).length : ℚ) := by
    rw [PRIOR_M]
    positivity
  simp [scoreCourse, get_course_review_stats, hne, hpos]

lemma scoreCourse_q_smoothed_zero (db : Snapshot) (ac : List Course) (rt : Finset Nat)
    (comp : List Nat) (C : ℚ) (c : Course)
    (h : (reviewsFor db c.id).length = 0) :
    (scoreCourse db ac rt comp C c).breakdown.q_smoothed = C := by
  have hemp : (reviewsFor db c.id).isEmpty := by
    rw [List.isEmpty_iff, ← List.length_eq_zero]
    exact h
  have hpos : (0 : ℚ) < PRIOR_M + ((0 : Nat) : ℚ) := by
    rw [PRIOR_M]
    norm_num
  simp [scoreCourse, get_course_review_stats, hemp, hpos]
  rw [PRIOR_M]
  norm_num

/-! ## Claims -/

/-- C1 counterexample: in `dbMin`, career goal 99 has no rows (it does not
exist), student 1 exists, yet `recommend_courses` does NOT fail with a
not-found condition: it returns an `ok` result. -/
theorem C1_counterexample :
    get_career_goal_skills dbMin 99 = ([], []) ∧
    (recommend_courses dbMin 1 99 10 true).isOk = true := by
  constructor
  · decide
  · decide

/-- C1 (amended): for every snapshot and every career goal id that does not
exist in the snapshot, `recommend_courses` (called for an existing student)
does not report a not-found condition: it succeeds, is not blocked, reports
`soft_readiness = 1.0`, and scores every recommended course as if the goal
had empty skill requirements (`s_role = 0`). -/
theorem C1_amended (db : Snapshot) (sid gid k : Nat) (ep : Bool)
    (hs : get_student db sid = true)
    (ht : ∀ r ∈ db.goalTechRows, r.1 ≠ gid)
    (hh : ∀ r ∈ db.goalHumanRows, r.1 ≠ gid) :
    (recommend_courses db sid gid k ep).isOk = true ∧
    (recommend_courses db sid gid k ep).toOption.map
      (fun res => (res.blocked_reason, res.soft_readiness)) = some (none, 1) ∧
    (∀ res, recommend_courses db sid gid k ep = Except.ok res →
      ∀ rec ∈ res.recommendations, rec.breakdown.s_role = 0) := by
  have htech : R_techOf db gid = ∅ := by
    have : db.goalTechRows.filter (fun r => r.1 = gid) = [] := by
      simp only [List.filter_eq_nil_iff, decide_eq_true_eq]
      exact ht
    simp [R_techOf, get_career_goal_skills, this]
  have hhum : R_humanOf db gid = ∅ := by
    have : db.goalHumanRows.filter (fun r => r.1 = gid) = [] := by
      simp only [List.filter_eq_nil_iff, decide_eq_true_eq]
      exact hh
    simp [R_humanOf, get_career_goal_skills, this]
  have h := recommend_ok_of_Rhuman_empty db sid gid k ep hs hhum
  refine ⟨by rw [h]; rfl, by rw [h]; rfl, ?_⟩
  intro res hres rec hmem
  rcases mem_recommendations db sid gid k ep res rec hres hmem with ⟨c, -, hrc⟩
  rw [hrc, scoreCourse_s_role, htech]
  simp

/-- C1 witness: the amended claim applied to `dbMin` and goal 99; the single
candidate course of `dbMin` indeed gets `s_role = 0`. -/
theorem C1_witness :
    (recommend_courses dbMin 1 99 10 true).isOk = true ∧
    (recommend_courses dbMin 1 99 10 true).toOption.map
      (fun res => (res.blocked_reason, res.soft_readiness)) = some (none, 1) ∧
    (recommend_courses dbMin 1 99 10 true).toOption.map
      (fun res => res.recommendations.map (fun rec => rec.breakdown.s_role)) = some [0] := by
  have h := C1_amended dbMin 1 99 10 true (by decide) (by simp [dbMin]) (by simp [dbMin])
  exact ⟨h.1, h.2.1, by decide⟩

/-- C2 counterexample: for a course (course 1 of `dbMin`) with no cluster and
no technical skill, the self-similarity does NOT return `techOverlap = 1.0`
(it returns 0.0) and its score is below `ALPHA`. -/
theorem C2_counterexample :
    (_compute_course_similarity 1 1 (get_course_clusters_map dbMin)
        (get_course_technical_skills_map dbMin)).2.2 ≠ 1 ∧
    (_compute_course_similarity 1 1 (get_course_clusters_map dbMin)
        (get_course_technical_skills_map dbMin)).1 < ALPHA := by
  constructor
  · decide
  · have h1 : get_course_clusters_map dbMin 1 = ∅ := by decide
    have h2 : get_course_technical_skills_map dbMin 1 = ∅ := by decide
    simp [_compute_course_similarity, h1, h2, ALPHA]
    norm_num

/-- C2 (amended): self-similarity returns `clusterMatched = true` and a score
`≥ ALPHA` whenever the course belongs to at least one cluster; its
`techOverlap` is `1.0` whenever the course has at least one technical skill
and `0.0` when it has none. -/
theorem C2_theorem :
    (∀ db : Snapshot, ∀ a : Nat, (get_course_clusters_map db a).Nonempty →
      (_compute_course_similarity a a (get_course_clusters_map db)
          (get_course_technical_skills_map db)).2.1 = true ∧
      ALPHA ≤ (_compute_course_similarity a a (get_course_clusters_map db)
          (get_course_technical_skills_map db)).1) ∧
    (∀ db : Snapshot, ∀ a : Nat,
      ((get_course_technical_skills_map db a).Nonempty →
        (_compute_course_similarity a a (get_course_clusters_map db)
            (get_course_technical_skills_map db)).2.2 = 1) ∧
      (get_course_technical_skills_map db a = ∅ →
        (_compute_course_similarity a a (get_course_clusters_map db)
            (get_course_technical_skills_map db)).2.2 = 0)) := by
  constructor
  · intro db a hc
    constructor
    · simp [_compute_course_similarity]
      exact hc
    · by_cases hsk : get_course_technical_skills_map db a = ∅
      · simp [_compute_course_similarity, hc, hsk, ALPHA]
      · have hS := Finset.nonempty_iff_ne_empty.mpr hsk
        have hcard : ((get_course_technical_skills_map db a).card : ℚ) ≠ 0 := by
          exact_mod_cast (Finset.card_pos.mpr hS).ne'
        simp [_compute_course_similarity, hc, hsk, Finset.inter_self,
          Finset.union_self, Finset.card_pos.mpr hS, div_self hcard, ALPHA]
        norm_num
  · intro db a
    constructor
    · intro hS
      have hsk := Finset.nonempty_iff_ne_empty.mp hS
      have hcard : ((get_course_technical_skills_map db a).card : ℚ) ≠ 0 := by
        exact_mod_cast (Finset.card_pos.mpr hS).ne'
      simp [_compute_course_similarity, hsk, Finset.inter_self, Finset.union_self,
        Finset.card_pos.mpr hS, div_self hcard]
    · intro hsk
      simp [_compute_course_similarity, hsk]

/-- C2 witness: course 1 of `dbW` belongs to cluster 100 and has technical
skill 10, so its self-similarity has `clusterMatched = true`,
`techOverlap = 1.0` and score `≥ ALPHA` (the score is exactly 1). -/
theorem C2_witness :
    (_compute_course_similarity 1 1 (get_course_clusters_map dbW)
        (get_course_technical_skills_map dbW)).2.1 = true ∧
    ALPHA ≤ (_compute_course_similarity 1 1 (get_course_clusters_map dbW)
        (get_course_technical_skills_map dbW)).1 ∧
    (_compute_course_similarity 1 1 (get_course_clusters_map dbW)
        (get_course_technical_skills_map dbW)).2.2 = 1 := by
  have h := C2_theorem.1 dbW 1 (by decide)
  exact ⟨h.1, h.2, (C2_theorem.2 dbW 1).1 (by decide)⟩

/-- C3: the readiness gate.  (a) A goal with no required human skills gives
`soft_readiness = 1.0`, empty overlap and missing lists, and no block.
(b) A non-empty required set with empty intersection with the student's
human skills short-circuits: empty recommendations and a non-null blocked
reason.  (c) Any strictly positive readiness ratio never blocks, and the
recommendations and blocked-course lists do not depend on the student's
human skills at all (hence not on the ratio). -/
theorem C3_theorem :
    (∀ db : Snapshot, ∀ sid gid k : Nat, ∀ ep : Bool,
      get_student db sid = true → R_humanOf db gid = ∅ →
      (recommend_courses db sid gid k ep).toOption.map
        (fun r => (r.soft_readiness, r.overlap_human_skills, r.missing_human_skills,
          r.blocked_reason)) = some (1, [], [], none)) ∧
    (∀ db : Snapshot, ∀ sid gid k : Nat, ∀ ep : Bool,
      get_student db sid = true → R_humanOf db gid ≠ ∅ →
      R_humanOf db gid ∩ humanHeldOf db sid = ∅ →
      (recommend_courses db sid gid k ep).toOption.map
        (fun r => (r.recommendations, r.blocked_reason)) = some ([], some blockedMsg)) ∧
    (∀ db : Snapshot, ∀ h' : List (Nat × Nat), ∀ sid gid k : Nat, ∀ ep : Bool,
      get_student db sid = true →
      0 < soft_readinessOf db sid gid →
      0 < soft_readinessOf {db with studentHumanRows := h'} sid gid →
      (recommend_courses db sid gid k ep).toOption.map
        (fun r => r.blocked_reason) = some none ∧
      (recommend_courses {db with studentHumanRows := h'} sid gid k ep).toOption.map
        (fun r => (r.recommendations, r.blocked_courses)) =
      (recommend_courses db sid gid k ep).toOption.map
        (fun r => (r.recommendations, r.blocked_courses))) := by
  refine ⟨?_, ?_, ?_⟩
  · intro db sid gid k ep hs hR
    rw [recommend_ok_of_Rhuman_empty db sid gid k ep hs hR]
    rfl
  · intro db sid gid k ep hs hR hov
    rw [recommend_ok_blocked db sid gid k ep hs hR hov]
    rfl
  · intro db h' sid gid k ep hs hr hr'
    by_cases hR : R_humanOf db gid = ∅
    · have hR2 : R_humanOf {db with studentHumanRows := h'} gid = ∅ := hR
      rw [recommend_ok_of_Rhuman_empty db sid gid k ep hs hR,
        recommend_ok_of_Rhuman_empty {db with studentHumanRows := h'} sid gid k ep hs hR2]
      exact ⟨rfl, rfl⟩
    · have hR2 : R_humanOf {db with studentHumanRows := h'} gid ≠ ∅ := hR
      have hov : (R_humanOf db gid ∩ humanHeldOf db sid).Nonempty := by
        rw [Finset.nonempty_iff_ne_empty]
        intro hcon
        rw [soft_readinessOf, if_neg hR, hcon] at hr
        simp at hr
      have hov' : (R_humanOf {db with studentHumanRows := h'} gid ∩
          humanHeldOf {db with studentHumanRows := h'} sid).Nonempty := by
        rw [Finset.nonempty_iff_ne_empty]
        intro hcon
        rw [soft_readinessOf, if_neg hR2, hcon] at hr'
        simp at hr'
      rw [recommend_ok_pass db sid gid k ep hs hR hov,
        recommend_ok_pass {db with studentHumanRows := h'} sid gid k ep hs hR2 hov']
      exact ⟨rfl, rfl⟩

/-- C3 witness: part (a) on `dbSparse` (goal 5 requires no human skills),
part (b) on `dbBlocked` (required {20}, student holds nothing), part (c) on
`dbSparse` with replaced human-skill rows. -/
theorem C3_witness :
    ((recommend_courses dbSparse 9 5 10 true).toOption.map
      (fun r => (r.soft_readiness, r.overlap_human_skills, r.missing_human_skills,
        r.blocked_reason)) = some (1, [], [], none)) ∧
    ((recommend_courses dbBlocked 1 5 10 true).toOption.map
      (fun r => (r.recommendations, r.blocked_reason)) = some ([], some blockedMsg)) ∧
    ((recommend_courses dbSparse 9 5 10 true).toOption.map
      (fun r => r.blocked_reason) = some none ∧
     (recommend_courses {dbSparse with studentHumanRows := [(9, 33)]} 9 5 10 true).toOption.map
       (fun r => (r.recommendations, r.blocked_courses)) =
     (recommend_courses dbSparse 9 5 10 true).toOption.map
       (fun r => (r.recommendations, r.blocked_courses))) := by
  refine ⟨C3_theorem.1 dbSparse 9 5 10 true (by decide) (by decide),
    C3_theorem.2.1 dbBlocked 1 5 10 true (by decide) (by decide) (by decide),
    C3_theorem.2.2 dbSparse [(9, 33)] 9 5 10 true (by decide) ?_ ?_⟩
  · rw [soft_readinessOf, if_pos (by decide)]
    norm_num
  · rw [soft_readinessOf, if_pos (by decide)]
    norm_num

/-- C4: every recommended course's `q_smoothed` is the Bayesian average
`(PRIOR_M * C + n * avg) / (PRIOR_M + n)` with `n` the course's review
count, `avg` its raw mean review score divided by 10, and `C` the global
baseline (`C_value`, the global mean / 10, or 0.5 when the snapshot has no
reviews); when `n = 0` it equals `C` exactly. -/
theorem C4_theorem (db : Snapshot) (sid gid k : Nat) (ep : Bool)
    (res : RecommendationResult) (rec : ScoredCourse)
    (hok : recommend_courses db sid gid k ep = Except.ok res)
    (hmem : rec ∈ res.recommendations) :
    rec.review_count = (reviewsFor db rec.course_id).length ∧
    ((reviewsFor db rec.course_id).length ≠ 0 →
      rec.breakdown.q_smoothed =
        (PRIOR_M * C_value db + ((reviewsFor db rec.course_id).length : ℚ) *
          ((reviewsFor db rec.course_id).sum / ((reviewsFor db rec.course_id).length : ℚ) / 10)) /
        (PRIOR_M + ((reviewsFor db rec.course_id).length : ℚ))) ∧
    ((reviewsFor db rec.course_id).length = 0 →
      rec.breakdown.q_smoothed = C_value db) := by
  rcases mem_recommendations db sid gid k ep res rec hok hmem with ⟨c, -, hrc⟩
  rw [hrc, scoreCourse_course_id]
  exact ⟨scoreCourse_review_count db _ _ _ _ c,
    fun h => scoreCourse_q_smoothed_pos db _ _ _ _ c h,
    fun h => scoreCourse_q_smoothed_zero db _ _ _ _ c h⟩

/-- C4 witness: in `dbW` the single recommended course (course 1) has one
review with score 10, the global baseline is `C = 0.5`, and its smoothed
quality is `(5 * 0.5 + 1 * 1.0) / 6 = 7/12`. -/
theorem C4_witness :
    C_value dbW = 1/2 ∧
    (scoreCourse dbW (get_all_courses dbW) (R_techOf dbW 5)
      (get_student_completed_course_ids dbW 1) (C_value dbW)
      ⟨1, "Algorithms"⟩).review_count = 1 ∧
    (scoreCourse dbW (get_all_courses dbW) (R_techOf dbW 5)
      (get_student_completed_course_ids dbW 1) (C_value dbW)
      ⟨1, "Algorithms"⟩).breakdown.q_smoothed = 7/12 := by
  have hC : C_value dbW = 1/2 := by
    rw [C_value]
    rw [show global_mean dbW = some (((10 : ℚ) + (0 + 0)) / 2) from rfl]
    norm_num
  have hok := recommend_ok_pass dbW 1 5 10 true (by decide) (by decide) (by decide)
  have hrecs : (scoreAndRank dbW (get_all_courses dbW)
      (get_student_completed_course_ids dbW 1) (R_techOf dbW 5)
      (((R_humanOf dbW 5 ∩ humanHeldOf dbW 1).card : ℚ) / ((R_humanOf dbW 5).card : ℚ))
      (((R_humanOf dbW 5 ∩ humanHeldOf dbW 1).sort (· ≤ ·)).map
        (fun s => SkillRef.mk s (skill_map dbW s)))
      (((R_humanOf dbW 5 \ humanHeldOf dbW 1).sort (· ≤ ·)).map
        (fun s => SkillRef.mk s (skill_map dbW s)))
      10 true).recommendations =
      [scoreCourse dbW (get_all_courses dbW) (R_techOf dbW 5)
        (get_student_completed_course_ids dbW 1) (C_value dbW) ⟨1, "Algorithms"⟩] := by
    rw [scoreAndRank_recommendations]
    rw [show resultsOf dbW (get_all_courses dbW) (R_techOf dbW 5)
      (get_student_completed_course_ids dbW 1) true =
      [scoreCourse dbW (get_all_courses dbW) (R_techOf dbW 5)
        (get_student_completed_course_ids dbW 1) (C_value dbW) ⟨1, "Algorithms"⟩] from rfl]
    rfl
  have h := C4_theorem dbW 1 5 10 true _
    (scoreCourse dbW (get_all_courses dbW) (R_techOf dbW 5)
      (get_student_completed_course_ids dbW 1) (C_value dbW) ⟨1, "Algorithms"⟩)
    hok (by rw [hrecs]; exact List.Mem.head [])
  rw [scoreCourse_course_id] at h
  have hrev : reviewsFor dbW 1 = [10] := rfl
  refine ⟨hC, ?_, ?_⟩
  · rw [h.1, hrev]
    rfl
  · have h2 := h.2.1 (by rw [hrev]; norm_num)
    rw [h2, hrev, hC, PRIOR_M]
    norm_num

/-- C5: for every recommended course, `s_role = 0.0` when the goal requires
no technical skills; otherwise `s_role` is the arithmetic mean, over the
required technical skill ids, of the course's relevance for the skill, where
a (course, skill) pair with no `course_skills` row has relevance 0.0. -/
theorem C5_theorem (db : Snapshot) (sid gid k : Nat) (ep : Bool)
    (res : RecommendationResult) (rec : ScoredCourse)
    (hok : recommend_courses db sid gid k ep = Except.ok res)
    (hmem : rec ∈ res.recommendations) :
    (R_techOf db gid = ∅ → rec.breakdown.s_role = 0) ∧
    (R_techOf db gid ≠ ∅ →
      rec.breakdown.s_role =
        (∑ s ∈ R_techOf db gid, relevanceLookup db rec.course_id s) /
          ((R_techOf db gid).card : ℚ)) ∧
    (∀ s : Nat, (∀ r ∈ db.courseSkills, ¬(r.course_id = rec.course_id ∧ r.skill_id = s)) →
      relevanceLookup db rec.course_id s = 0) := by
  rcases mem_recommendations db sid gid k ep res rec hok hmem with ⟨c, -, hrc⟩
  rw [hrc, scoreCourse_course_id, scoreCourse_s_role]
  refine ⟨fun h => by rw [if_pos h], fun h => by rw [if_neg h], ?_⟩
  intro s hnone
  have hfil : db.courseSkills.filter (fun r => r.course_id = c.id ∧ r.skill_id = s) = [] := by
    simp only [List.filter_eq_nil_iff, decide_eq_true_eq]
    exact hnone
  rw [relevanceLookup, hfil]
  rfl

/-- C5 witness: in `dbW`, goal 5 requires technical skills {10, 11}; the
recommended course 1 has relevance 0.8 for 10 and no row for 11, so
`s_role = (0.8 + 0.0) / 2 = 0.4`. -/
theorem C5_witness :
    relevanceLookup dbW 1 10 = 0.8 ∧
    relevanceLookup dbW 1 11 = 0 ∧
    (scoreCourse dbW (get_all_courses dbW) (R_techOf dbW 5)
      (get_student_completed_course_ids dbW 1) (C_value dbW)
      ⟨1, "Algorithms"⟩).breakdown.s_role = 0.4 := by
  have hok := recommend_ok_pass dbW 1 5 10 true (by decide) (by decide) (by decide)
  have hrecs : (scoreAndRank dbW (get_all_courses dbW)
      (get_student_completed_course_ids dbW 1) (R_techOf dbW 5)
      (((R_humanOf dbW 5 ∩ humanHeldOf dbW 1).card : ℚ) / ((R_humanOf dbW 5).card : ℚ))
      (((R_humanOf dbW 5 ∩ humanHeldOf dbW 1).sort (· ≤ ·)).map
        (fun s => SkillRef.mk s (skill_map dbW s)))
      (((R_humanOf dbW 5 \ humanHeldOf dbW 1).sort (· ≤ ·)).map
        (fun s => SkillRef.mk s (skill_map dbW s)))
      10 true).recommendations =
      [scoreCourse dbW (get_all_courses dbW) (R_techOf dbW 5)
        (get_student_completed_course_ids dbW 1) (C_value dbW) ⟨1, "Algorithms"⟩] := by
    rw [scoreAndRank_recommendations]
    rfl
  have h := C5_theorem dbW 1 5 10 true _
    (scoreCourse dbW (get_all_courses dbW) (R_techOf dbW 5)
      (get_student_completed_course_ids dbW 1) (C_value dbW) ⟨1, "Algorithms"⟩)
    hok (by rw [hrecs]; exact List.Mem.head [])
  rw [scoreCourse_course_id] at h
  have h2 := h.2.1 (by decide)
  refine ⟨rfl, rfl, ?_⟩
  rw [h2]
  rw [show R_techOf dbW 5 = ({10, 11} : Finset Nat) from by decide]
  rw [Finset.sum_insert (by decide), Finset.sum_singleton]
  rw [show relevanceLookup dbW 1 10 = 0.8 from rfl,
    show relevanceLookup dbW 1 11 = 0 from rfl]
  norm_num

lemma simsFor_length (db : Snapshot) (ac : List Course) (comp : List Nat) (c : Course)
    (hf : ∀ cid ∈ comp, ∃ co ∈ ac, co.id = cid) :
    (simsFor db ac comp c).length = comp.length := by
  induction comp with
  | nil => rfl
  | cons a l ih =>
    obtain ⟨co, hco, hid⟩ := hf a (List.mem_cons_self a l)
    have hsome : (ac.find? (fun x => decide (x.id = a))).isSome = true := by
      rw [List.find?_isSome]
      exact ⟨co, hco, by simp [hid]⟩
    obtain ⟨v, hv⟩ := Option.isSome_iff_exists.mp hsome
    have hrest := ih (fun cid hc => hf cid (List.mem_cons_of_mem a hc))
    simp only [simsFor, List.filterMap_cons] at *
    rw [hv]
    simp only [Option.map_some', List.length_cons]
    rw [hrest]

lemma scoreCourse_affinity_empty (db : Snapshot) (ac : List Course) (rt : Finset Nat)
    (C : ℚ) (c : Course) :
    (scoreCourse db ac rt [] C c).breakdown.s_affinity = 0 ∧
    (scoreCourse db ac rt [] C c).affinity_explanation = none := by
  constructor <;> simp [scoreCourse]

lemma scoreCourse_affinity_fields (db : Snapshot) (ac : List Course) (rt : Finset Nat)
    (comp : List Nat) (C : ℚ) (c : Course)
    (hc : comp ≠ []) (hs : simsFor db ac comp c ≠ []) :
    (scoreCourse db ac rt comp C c).breakdown.s_affinity =
      (((List.insertionSort simGE (simsFor db ac comp c)).take
          (min TOP_K_SIMILAR (List.insertionSort simGE (simsFor db ac comp c)).length)).map
        (fun s => s.sim)).sum /
      ((min TOP_K_SIMILAR (List.insertionSort simGE (simsFor db ac comp c)).length : Nat) : ℚ) ∧
    (scoreCourse db ac rt comp C c).affinity_explanation =
      some ((List.insertionSort simGE (simsFor db ac comp c)).take
          (min TOP_K_SIMILAR (List.insertionSort simGE (simsFor db ac comp c)).length)) := by
  have hce : ¬ comp.isEmpty := by
    rw [List.isEmpty_iff]
    exact hc
  have hse : ¬ (simsFor db ac comp c).isEmpty := by
    rw [List.isEmpty_iff]
    exact hs
  have hlen : (List.insertionSort simGE (simsFor db ac comp c)).length =
      (simsFor db ac comp c).length := List.length_insertionSort _ _
  have hpos : 0 < (simsFor db ac comp c).length := List.length_pos.mpr hs
  have htake : ((List.insertionSort simGE (simsFor db ac comp c)).take
      (min TOP_K_SIMILAR (List.insertionSort simGE (simsFor db ac comp c)).length)).length =
      min TOP_K_SIMILAR (List.insertionSort simGE (simsFor db ac comp c)).length := by
    rw [List.length_take, hlen]
    omega
  have hne_take : ¬ ((List.insertionSort simGE (simsFor db ac comp c)).take
      (min TOP_K_SIMILAR (List.insertionSort simGE (simsFor db ac comp c)).length)).isEmpty := by
    rw [List.isEmpty_iff, ← List.length_eq_zero, htake, hlen, TOP_K_SIMILAR]
    omega
  constructor
  · simp [scoreCourse, hce, hse]
  · simp [scoreCourse, hce, hse, hne_take]
    refine ⟨⟨by decide, hs⟩, ?_⟩
    intro hcon
    apply hs
    have hl := congrArg List.length hcon
    rw [hlen] at hl
    exact List.length_eq_zero.mp hl

/-- C6: for every recommended course, if the student completed no courses
then `s_affinity = 0` and no affinity explanation is produced; otherwise
(provided each completed id refers to an existing course) the explanation
lists exactly the top `min(TOP_K_SIMILAR, #completed)` similarity entries,
sorted descending by similarity score, and `s_affinity` is their average:
the listed entries dominate (`≥`) every non-listed pairwise similarity. -/
theorem C6_theorem (db : Snapshot) (sid gid k : Nat) (ep : Bool)
    (res : RecommendationResult) (rec : ScoredCourse)
    (hok : recommend_courses db sid gid k ep = Except.ok res)
    (hmem : rec ∈ res.recommendations) :
    (get_student_completed_course_ids db sid = [] →
      rec.breakdown.s_affinity = 0 ∧ rec.affinity_explanation = none) ∧
    (get_student_completed_course_ids db sid ≠ [] →
      (∀ cid ∈ get_student_completed_course_ids db sid,
        ∃ co ∈ get_all_courses db, co.id = cid) →
      ∃ l rest,
        rec.affinity_explanation = some l ∧
        l.length = min TOP_K_SIMILAR (get_student_completed_course_ids db sid).length ∧
        l.Pairwise simGE ∧
        rec.breakdown.s_affinity = (l.map (fun e => e.sim)).sum / (l.length : ℚ) ∧
        (simsFor db (get_all_courses db) (get_student_completed_course_ids db sid)
          ⟨rec.course_id, rec.name⟩).Perm (l ++ rest) ∧
        (∀ x ∈ rest, ∀ y ∈ l, x.sim ≤ y.sim)) := by
  rcases mem_recommendations db sid gid k ep res rec hok hmem with ⟨c, -, hrc⟩
  subst hrc
  constructor
  · intro h
    rw [h]
    exact scoreCourse_affinity_empty db _ _ _ c
  · intro hne hf
    have hsims_len : (simsFor db (get_all_courses db)
        (get_student_completed_course_ids db sid) c).length =
        (get_student_completed_course_ids db sid).length :=
      simsFor_length db _ _ c hf
    have hs : simsFor db (get_all_courses db)
        (get_student_completed_course_ids db sid) c ≠ [] := by
      intro hcon
      rw [hcon] at hsims_len
      exact hne (List.length_eq_zero.mp hsims_len.symm)
    obtain ⟨ha, he⟩ := scoreCourse_affinity_fields db (get_all_courses db)
      (R_techOf db gid) (get_student_completed_course_ids db sid) (C_value db) c hne hs
    have hLsort : (List.insertionSort simGE (simsFor db (get_all_courses db)
        (get_student_completed_course_ids db sid) c)).length =
        (simsFor db (get_all_courses db)
          (get_student_completed_course_ids db sid) c).length :=
      List.length_insertionSort _ _
    have htake : ((List.insertionSort simGE (simsFor db (get_all_courses db)
        (get_student_completed_course_ids db sid) c)).take
        (min TOP_K_SIMILAR (List.insertionSort simGE (simsFor db (get_all_courses db)
          (get_student_completed_course_ids db sid) c)).length)).length =
        min TOP_K_SIMILAR (List.insertionSort simGE (simsFor db (get_all_courses db)
          (get_student_completed_course_ids db sid) c)).length := by
      rw [List.length_take]
      omega
    refine ⟨_, (List.insertionSort simGE (simsFor db (get_all_courses db)
        (get_student_completed_course_ids db sid) c)).drop
        (min TOP_K_SIMILAR (List.insertionSort simGE (simsFor db (get_all_courses db)
          (get_student_completed_course_ids db sid) c)).length),
      he, ?_, ?_, ?_, ?_, ?_⟩
    · rw [htake, hLsort, hsims_len]
    · exact (List.sorted_insertionSort simGE _).sublist (List.take_sublist _ _)
    · rw [ha, htake]
    · rw [List.take_append_drop]
      exact (List.perm_insertionSort simGE _).symm
    · intro x hx y hy
      have hp : (List.insertionSort simGE (simsFor db (get_all_courses db)
          (get_student_completed_course_ids db sid) c)).Pairwise simGE :=
        List.sorted_insertionSort simGE _
      rw [← List.take_append_drop (min TOP_K_SIMILAR (List.insertionSort simGE
        (simsFor db (get_all_courses db)
          (get_student_completed_course_ids db sid) c)).length)
        (List.insertionSort simGE (simsFor db (get_all_courses db)
          (get_student_completed_course_ids db sid) c)),
        List.pairwise_append] at hp
      exact hp.2.2 y hy x hx

/-- C6 witness: the claim's non-empty branch applied to `dbW`, whose student
completed one course; the explanation holds exactly `min(3, 1) = 1` entry. -/
theorem C6_witness :
    ∃ l rest,
      (scoreCourse dbW (get_all_courses dbW) (R_techOf dbW 5)
        (get_student_completed_course_ids dbW 1) (C_value dbW)
        ⟨1, "Algorithms"⟩).affinity_explanation = some l ∧
      l.length = min TOP_K_SIMILAR (get_student_completed_course_ids dbW 1).length ∧
      l.Pairwise simGE ∧
      (scoreCourse dbW (get_all_courses dbW) (R_techOf dbW 5)
        (get_student_completed_course_ids dbW 1) (C_value dbW)
        ⟨1, "Algorithms"⟩).breakdown.s_affinity =
        (l.map (fun e => e.sim)).sum / (l.length : ℚ) ∧
      (simsFor dbW (get_all_courses dbW) (get_student_completed_course_ids dbW 1)
        ⟨(scoreCourse dbW (get_all_courses dbW) (R_techOf dbW 5)
            (get_student_completed_course_ids dbW 1) (C_value dbW)
            ⟨1, "Algorithms"⟩).course_id,
         (scoreCourse dbW (get_all_courses dbW) (R_techOf dbW 5)
            (get_student_completed_course_ids dbW 1) (C_value dbW)
            ⟨1, "Algorithms"⟩).name⟩).Perm (l ++ rest) ∧
      (∀ x ∈ rest, ∀ y ∈ l, x.sim ≤ y.sim) := by
  have hok := recommend_ok_pass dbW 1 5 10 true (by decide) (by decide) (by decide)
  have hrecs : (scoreAndRank dbW (get_all_courses dbW)
      (get_student_completed_course_ids dbW 1) (R_techOf dbW 5)
      (((R_humanOf dbW 5 ∩ humanHeldOf dbW 1).card : ℚ) / ((R_humanOf dbW 5).card : ℚ))
      (((R_humanOf dbW 5 ∩ humanHeldOf dbW 1).sort (· ≤ ·)).map
        (fun s => SkillRef.mk s (skill_map dbW s)))
      (((R_humanOf dbW 5 \ humanHeldOf dbW 1).sort (· ≤ ·)).map
        (fun s => SkillRef.mk s (skill_map dbW s)))
      10 true).recommendations =
      [scoreCourse dbW (get_all_courses dbW) (R_techOf dbW 5)
        (get_student_completed_course_ids dbW 1) (C_value dbW) ⟨1, "Algorithms"⟩] := by
    rw [scoreAndRank_recommendations]
    rfl
  exact (C6_theorem dbW 1 5 10 true _ _ hok
    (by rw [hrecs]; exact List.Mem.head [])).2 (by decide) (by decide)

lemma scoreAndRank_blocked_reason (db : Snapshot) (ac : List Course)
    (comp : List Nat) (rt : Finset Nat) (sr : ℚ) (ov ms : List SkillRef)
    (k : Nat) (ep : Bool) :
    (scoreAndRank db ac comp rt sr ov ms k ep).blocked_reason = none := rfl

lemma scoreAndRank_blocked_courses (db : Snapshot) (ac : List Course)
    (comp : List Nat) (rt : Finset Nat) (sr : ℚ) (ov ms : List SkillRef)
    (k : Nat) (ep : Bool) :
    (scoreAndRank db ac comp rt sr ov ms k ep).blocked_courses =
      if ep then some (blockedOf db ac comp ep) else none := rfl

lemma candidatesOf_false (db : Snapshot) (ac : List Course) (comp : List Nat) :
    candidatesOf db ac comp false = ac.filter (fun c => !(comp.contains c.id)) := rfl

lemma candidatesOf_true (db : Snapshot) (ac : List Course) (comp : List Nat) :
    candidatesOf db ac comp true =
      (ac.filter (fun c => !(comp.contains c.id))).filter
        (fun c => (missingPrereqs db comp c.id).isEmpty) := rfl

lemma blockedOf_true (db : Snapshot) (ac : List Course) (comp : List Nat) :
    blockedOf db ac comp true =
      ((ac.filter (fun c => !(comp.contains c.id))).filter
        (fun c => !(missingPrereqs db comp c.id).isEmpty)).map
        (fun c => ⟨c.id, c.name, missingPrereqs db comp c.id⟩) := rfl

lemma mem_candidates (db : Snapshot) (ac : List Course) (comp : List Nat)
    (ep : Bool) (c : Course) (hc : c ∈ candidatesOf db ac comp ep) :
    c ∈ ac ∧ c.id ∉ comp ∧ (ep = true → missingPrereqs db comp c.id = []) := by
  cases ep with
  | false =>
    rw [candidatesOf_false, List.mem_filter] at hc
    obtain ⟨hmem, hnc⟩ := hc
    simp only [Bool.not_eq_true', List.contains_eq_any_beq, List.any_eq_false,
      beq_eq_false_iff_ne, ne_eq] at hnc
    exact ⟨hmem, fun hin => hnc c.id hin (beq_self_eq_true c.id), fun h => by cases h⟩
  | true =>
    rw [candidatesOf_true, List.mem_filter, List.mem_filter] at hc
    obtain ⟨⟨hmem, hnc⟩, hemp⟩ := hc
    simp only [Bool.not_eq_true', List.contains_eq_any_beq, List.any_eq_false,
      beq_eq_false_iff_ne, ne_eq] at hnc
    rw [List.isEmpty_iff] at hemp
    exact ⟨hmem, fun hin => hnc c.id hin (beq_self_eq_true c.id), fun _ => hemp⟩

lemma mem_blockedOf (db : Snapshot) (ac : List Course) (comp : List Nat)
    (b : BlockedCourse) (hb : b ∈ blockedOf db ac comp true) :
    ∃ c ∈ ac, c.id ∉ comp ∧ missingPrereqs db comp c.id ≠ [] ∧
      b = ⟨c.id, c.name, missingPrereqs db comp c.id⟩ := by
  rw [blockedOf_true, List.mem_map] at hb
  obtain ⟨c, hcf, hbc⟩ := hb
  rw [List.mem_filter, List.mem_filter] at hcf
  obtain ⟨⟨hmem, hnc⟩, hne⟩ := hcf
  simp only [Bool.not_eq_true', List.contains_eq_any_beq, List.any_eq_false,
    beq_eq_false_iff_ne, ne_eq] at hnc
  rw [Bool.not_eq_true', List.isEmpty_eq_false] at hne
  exact ⟨c, hmem, fun hin => hnc c.id hin (beq_self_eq_true c.id), hne, hbc.symm⟩

lemma blockedOf_mem_of (db : Snapshot) (ac : List Course) (comp : List Nat)
    (c : Course) (hmem : c ∈ ac) (hnc : c.id ∉ comp)
    (hmp : missingPrereqs db comp c.id ≠ []) :
    (⟨c.id, c.name, missingPrereqs db comp c.id⟩ : BlockedCourse) ∈
      blockedOf db ac comp true := by
  rw [blockedOf_true, List.mem_map]
  refine ⟨c, ?_, rfl⟩
  rw [List.mem_filter, List.mem_filter]
  refine ⟨⟨hmem, ?_⟩, ?_⟩
  · simp only [Bool.not_eq_true', List.contains_eq_any_beq, List.any_eq_false,
      beq_eq_false_iff_ne, ne_eq]
    intro x hx hcon
    exact hnc (eq_of_beq hcon ▸ hx)
  · rw [Bool.not_eq_true', List.isEmpty_eq_false]
    exact hmp

/-- C7: eligibility filtering in an unblocked call.  Completed courses never
appear in the recommendations; with `enforce_prereqs = true`, every
non-completed course with missing prerequisites appears in `blocked_courses`
with exactly its missing list and never in the recommendations; a course
with no prerequisite rows is never in `blocked_courses`; and the
`blocked_courses` list follows the input course order (its ids form a
sublist of the input id sequence). -/
theorem C7_theorem (db : Snapshot) (sid gid k : Nat) (ep : Bool)
    (res : RecommendationResult)
    (hok : recommend_courses db sid gid k ep = Except.ok res)
    (hnb : res.blocked_reason = none) :
    (∀ rec ∈ res.recommendations,
      rec.course_id ∉ get_student_completed_course_ids db sid) ∧
    (ep = true →
      ∀ c ∈ get_all_courses db, c.id ∉ get_student_completed_course_ids db sid →
      missingPrereqs db (get_student_completed_course_ids db sid) c.id ≠ [] →
      (res.blocked_courses = some (blockedOf db (get_all_courses db)
          (get_student_completed_course_ids db sid) ep) ∧
        (⟨c.id, c.name, missingPrereqs db (get_student_completed_course_ids db sid) c.id⟩ :
          BlockedCourse) ∈ blockedOf db (get_all_courses db)
            (get_student_completed_course_ids db sid) ep) ∧
      (∀ rec ∈ res.recommendations, rec.course_id ≠ c.id)) ∧
    (∀ cid : Nat, get_course_prereqs db cid = [] →
      ∀ bl, res.blocked_courses = some bl → ∀ b ∈ bl, b.course_id ≠ cid) ∧
    (∀ bl, res.blocked_courses = some bl →
      List.Sublist (bl.map (fun b => b.course_id))
        ((get_all_courses db).map (fun c => c.id))) := by
  rcases ok_cases db sid gid k ep res hok with ⟨-, hbr, -⟩ | ⟨sr, ov, ms, hres⟩
  · rw [hnb] at hbr
    cases hbr
  · subst hres
    refine ⟨?_, ?_, ?_, ?_⟩
    · intro rec hmem
      rcases mem_recommendations db sid gid k ep _ rec hok hmem with ⟨c, hc, hrc⟩
      rw [hrc, scoreCourse_course_id]
      exact (mem_candidates db _ _ ep c hc).2.1
    · intro hep c hmem hnc hmp
      subst hep
      refine ⟨⟨by rw [scoreAndRank_blocked_courses, if_pos rfl], ?_⟩, ?_⟩
      · exact blockedOf_mem_of db _ _ c hmem hnc hmp
      · intro rec hrmem hcon
        rcases mem_recommendations db sid gid k true _ rec hok hrmem with ⟨c', hc', hrc⟩
        have hm := (mem_candidates db _ _ true c' hc').2.2 rfl
        rw [hrc, scoreCourse_course_id] at hcon
        rw [hcon] at hm
        exact hmp hm
    · intro cid hpre bl hbl b hb hcon
      rw [scoreAndRank_blocked_courses] at hbl
      cases ep with
      | false => cases hbl
      | true =>
        rw [if_pos rfl] at hbl
        have hinj := Option.some.inj hbl
        subst hinj
        rcases mem_blockedOf db _ _ b hb with ⟨c, -, -, hmp, hbc⟩
        apply hmp
        rw [missingPrereqs]
        have : c.id = cid := by
          rw [hbc] at hcon
          exact hcon
        rw [this, hpre]
        rfl
    · intro bl hbl
      rw [scoreAndRank_blocked_courses] at hbl
      cases ep with
      | false => cases hbl
      | true =>
        rw [if_pos rfl] at hbl
        have hinj := Option.some.inj hbl
        subst hinj
        rw [blockedOf_true, List.map_map]
        have hsub : List.Sublist (((get_all_courses db).filter
            (fun c => !((get_student_completed_course_ids db sid).contains c.id))).filter
            (fun c => !(missingPrereqs db (get_student_completed_course_ids db sid) c.id).isEmpty))
            (get_all_courses db) :=
          (List.filter_sublist _).trans (List.filter_sublist _)
        exact hsub.map (fun c => c.id)

/-- C7 witness: in `dbW` (prereq enforcement on), course 2 is completed and
absent from the recommendations, course 3 misses prerequisite 99 and sits in
`blocked_courses` as `⟨3, "Advanced", [99]⟩`, and no recommendation is
course 3. -/
theorem C7_witness :
    recommend_courses dbW 1 5 10 true = Except.ok dbW_result ∧
    dbW_result.blocked_courses = some [⟨3, "Advanced", [99]⟩] ∧
    (∀ rec ∈ dbW_result.recommendations,
      rec.course_id ∉ get_student_completed_course_ids dbW 1) ∧
    (∀ rec ∈ dbW_result.recommendations, rec.course_id ≠ 3) := by
  have hok : recommend_courses dbW 1 5 10 true = Except.ok dbW_result :=
    recommend_ok_pass dbW 1 5 10 true (by decide) (by decide) (by decide)
  have h := C7_theorem dbW 1 5 10 true dbW_result hok rfl
  have h2 := h.2.1 rfl ⟨3, "Advanced"⟩ (by decide) (by decide) (by decide)
  exact ⟨hok, by decide, h.1, fun rec hr => h2.2 rec hr⟩

lemma insertionSort_filter_ties (l : List ScoredCourse) (s : ℚ) :
    (List.insertionSort scoreGE l).filter (fun x => decide (x.final_score = s)) =
      l.filter (fun x => decide (x.final_score = s)) := by
  have hall : ∀ x ∈ l.filter (fun x => decide (x.final_score = s)), x.final_score = s := by
    intro x hx
    exact of_decide_eq_true (List.mem_filter.mp hx).2
  have hpair : (l.filter (fun x => decide (x.final_score = s))).Pairwise scoreGE := by
    apply List.pairwise_of_forall_mem_list
    intro a ha b hb
    show b.final_score ≤ a.final_score
    rw [hall a ha, hall b hb]
  have hsub : List.Sublist (l.filter (fun x => decide (x.final_score = s)))
      (List.insertionSort scoreGE l) :=
    List.sublist_insertionSort hpair (List.filter_sublist l)
  have hsub2 : List.Sublist (l.filter (fun x => decide (x.final_score = s)))
      ((List.insertionSort scoreGE l).filter (fun x => decide (x.final_score = s))) := by
    have h2 := hsub.filter (fun x => decide (x.final_score = s))
    simpa [List.filter_filter] using h2
  have hperm : ((List.insertionSort scoreGE l).filter
      (fun x => decide (x.final_score = s))).Perm
      (l.filter (fun x => decide (x.final_score = s))) :=
    (List.perm_insertionSort scoreGE l).filter _
  exact (hsub2.eq_of_length hperm.length_eq.symm).symm

/-- C8: the returned recommendations hold at most `k` entries and are sorted
by `final_score` in non-increasing order; in an unblocked call they are the
first `k` entries of a stable descending sort of the scored candidates: a
permutation, sorted, in which courses of equal `final_score` keep exactly
their candidate (input) order. -/
theorem C8_theorem (db : Snapshot) (sid gid k : Nat) (ep : Bool)
    (res : RecommendationResult)
    (hok : recommend_courses db sid gid k ep = Except.ok res) :
    res.recommendations.length ≤ k ∧
    res.recommendations.Pairwise scoreGE ∧
    (res.blocked_reason = none →
      ∃ sortedAll : List ScoredCourse,
        sortedAll.Perm (resultsOf db (get_all_courses db) (R_techOf db gid)
          (get_student_completed_course_ids db sid) ep) ∧
        sortedAll.Pairwise scoreGE ∧
        (∀ s : ℚ, sortedAll.filter (fun x => decide (x.final_score = s)) =
          (resultsOf db (get_all_courses db) (R_techOf db gid)
            (get_student_completed_course_ids db sid) ep).filter
            (fun x => decide (x.final_score = s))) ∧
        res.recommendations = sortedAll.take k) := by
  rcases ok_cases db sid gid k ep res hok with ⟨hemp, hbr, -⟩ | ⟨sr, ov, ms, hres⟩
  · rw [hemp]
    refine ⟨by simp, by simp, ?_⟩
    intro hnb
    rw [hbr] at hnb
    cases hnb
  · subst hres
    rw [scoreAndRank_recommendations]
    refine ⟨?_, ?_, ?_⟩
    · exact List.length_take_le _ _
    · exact ((List.sorted_insertionSort scoreGE _).sublist (List.take_sublist _ _))
    · intro _
      exact ⟨List.insertionSort scoreGE (resultsOf db (get_all_courses db)
          (R_techOf db gid) (get_student_completed_course_ids db sid) ep),
        List.perm_insertionSort _ _,
        List.sorted_insertionSort _ _,
        fun s => insertionSort_filter_ties _ s,
        rfl⟩

/-- C8 witness: the ranking contract instantiated on `dbW`. -/
theorem C8_witness :
    dbW_result.recommendations.length ≤ 10 ∧
    dbW_result.recommendations.Pairwise scoreGE ∧
    ∃ sortedAll : List ScoredCourse,
      sortedAll.Perm (resultsOf dbW (get_all_courses dbW) (R_techOf dbW 5)
        (get_student_completed_course_ids dbW 1) true) ∧
      sortedAll.Pairwise scoreGE ∧
      (∀ s : ℚ, sortedAll.filter (fun x => decide (x.final_score = s)) =
        (resultsOf dbW (get_all_courses dbW) (R_techOf dbW 5)
          (get_student_completed_course_ids dbW 1) true).filter
          (fun x => decide (x.final_score = s))) ∧
      dbW_result.recommendations = sortedAll.take 10 := by
  have hok : recommend_courses dbW 1 5 10 true = Except.ok dbW_result :=
    recommend_ok_pass dbW 1 5 10 true (by decide) (by decide) (by decide)
  have h := C8_theorem dbW 1 5 10 true dbW_result hok
  exact ⟨h.1, h.2.1, h.2.2 rfl⟩

/-- C9: totality on sparse data.  For every snapshot in which the student
exists — whatever dangling references, missing relevance/cluster/review/
prerequisite rows it contains — `recommend_courses` returns `ok` (the only
error is the student check), and in an unblocked call every candidate course
is scored: the recommendation list's length is `min k #candidates`. -/
theorem C9_theorem :
    (∀ db : Snapshot, ∀ sid gid k : Nat, ∀ ep : Bool,
      get_student db sid = true →
      (recommend_courses db sid gid k ep).isOk = true) ∧
    (∀ db : Snapshot, ∀ sid gid k : Nat, ∀ ep : Bool,
      ∀ res : RecommendationResult,
      recommend_courses db sid gid k ep = Except.ok res →
      res.blocked_reason = none →
      res.recommendations.length =
        min k (candidatesOf db (get_all_courses db)
          (get_student_completed_course_ids db sid) ep).length) := by
  constructor
  · intro db sid gid k ep hs
    by_cases hR : R_humanOf db gid = ∅
    · rw [recommend_ok_of_Rhuman_empty db sid gid k ep hs hR]
      rfl
    · by_cases hov : R_humanOf db gid ∩ humanHeldOf db sid = ∅
      · rw [recommend_ok_blocked db sid gid k ep hs hR hov]
        rfl
      · rw [recommend_ok_pass db sid gid k ep hs hR
          (Finset.nonempty_iff_ne_empty.mpr hov)]
        rfl
  · intro db sid gid k ep res hok hnb
    rcases ok_cases db sid gid k ep res hok with ⟨-, hbr, -⟩ | ⟨sr, ov, ms, hres⟩
    · rw [hnb] at hbr
      cases hbr
    · subst hres
      rw [scoreAndRank_recommendations, List.length_take, List.length_insertionSort,
        resultsOf, List.length_map]

/-- C9 witness: `dbSparse` has a null relevance row on a dangling skill, a
goal requiring a skill with no row, a completed id with no course row and no
reviews; the call still succeeds and its single candidate is scored. -/
theorem C9_witness :
    (recommend_courses dbSparse 9 5 10 true).isOk = true ∧
    dbSparse_result.recommendations.length =
      min 10 (candidatesOf dbSparse (get_all_courses dbSparse)
        (get_student_completed_course_ids dbSparse 9) true).length := by
  have hok : recommend_courses dbSparse 9 5 10 true = Except.ok dbSparse_result :=
    recommend_ok_of_Rhuman_empty dbSparse 9 5 10 true (by decide) (by decide)
  exact ⟨C9_theorem.1 dbSparse 9 5 10 true (by decide),
    C9_theorem.2 dbSparse 9 5 10 true dbSparse_result hok rfl⟩

/-- C10: when the readiness gate blocks, the returned `blocked_courses`
field is the empty list when `enforce_prereqs` is true and `None` when it is
false — prerequisite filtering is not performed in a blocked response. -/
theorem C10_theorem (db : Snapshot) (sid gid k : Nat) (ep : Bool)
    (hs : get_student db sid = true) (hR : R_humanOf db gid ≠ ∅)
    (hov : R_humanOf db gid ∩ humanHeldOf db sid = ∅) :
    (recommend_courses db sid gid k ep).toOption.map
      (fun r => (r.blocked_reason, r.blocked_courses)) =
      some (some blockedMsg, if ep then some [] else none) := by
  rw [recommend_ok_blocked db sid gid k ep hs hR hov]
  rfl

/-- C10 witness: on `dbBlocked`, blocked responses carry `blocked_courses =
some []` with `enforce_prereqs = true` and `none` with it false. -/
theorem C10_witness :
    (recommend_courses dbBlocked 1 5 10 true).toOption.map
      (fun r => (r.blocked_reason, r.blocked_courses)) =
      some (some blockedMsg, some []) ∧
    (recommend_courses dbBlocked 1 5 10 false).toOption.map
      (fun r => (r.blocked_reason, r.blocked_courses)) =
      some (some blockedMsg, none) := by
  constructor
  · have h := C10_theorem dbBlocked 1 5 10 true (by decide) (by decide) (by decide)
    rwa [if_pos rfl] at h
  · have h := C10_theorem dbBlocked 1 5 10 false (by decide) (by decide) (by decide)
    rwa [if_neg (by simp)] at h

end RecEngine
